import Mathlib

/-!
Verification development for the blackfynn-python client object model
(src/blackfynn/models.py and src/blackfynn/cli/cli_utils.py).

The Python source is shallowly embedded as executable Lean definitions:

* Python dictionaries are modelled as association lists (key order is the
  insertion/iteration order; Python dict keys are unique, which the theorems
  respect by construction).
* Python exceptions are modelled by an explicit error type `PyErr`; a
  function that can raise returns `Except PyErr _` or threads an
  `Option PyErr` next to the unchanged state.
* The remote platform (the `self._api` collaborators, which live in
  blackfynn/api/, outside the embedded sources) is modelled as an explicit
  `Api` state record that counts create/fetch round trips and records
  delete calls; those verbs are modelled from the specification, and each
  such definition is marked `Modelled from the spec:` in its doc comment.
* Python strings of the wire protocol are ASCII; `str.lower()` is modelled
  character-wise (`lowerChar`).
-/

namespace Blackfynn

/-! ## Python string primitives used by models.py -/

/-- ASCII lower-casing of one character, as Python `str.lower` acts on the
ASCII wire keys handled by `BaseNode.from_dict`. -/
def lowerChar (c : Char) : Char := c.toLower

/-- Python `k.lower()` on an ASCII string, character by character. -/
def lowerStr (s : String) : String := String.mk (s.data.map lowerChar)

/-- Python `re.sub(r'[A-Z]', lambda x: '_'+x.group(0).lower(), k)`:
every upper-case letter (including a leading one) is replaced by an
underscore followed by its lower-case form. -/
def camelSub (s : String) : String :=
  String.mk (s.data.foldr (fun c acc => if c.isUpper then '_' :: lowerChar c :: acc else c :: acc) [])

/-- Python `re.sub(r'[0-9]', lambda x: x.group(0)+'_', k)`: every digit is
replaced by itself followed by an underscore. -/
def digitSub (s : String) : String :=
  String.mk (s.data.foldr (fun c acc => if c.isDigit then c :: '_' :: acc else c :: acc) [])

/-- Python `'.'.join(parts)`. -/
def joinDot : List String → String
  | [] => ("")
  | [x] => x
  | x :: rest => x ++ ("." ) ++ joinDot rest

/-! ## Python exceptions raised by the embedded code -/

/-- Wire values: the JSON-ish values appearing in wire records
(`data` arguments of the `from_dict` class methods). `wnull` is Python
`None`. -/
inductive WVal where
  | wnull
  | wstr (s : String)
  | wint (n : Int)
  | wbool (b : Bool)
  | wdict (entries : List (String × WVal))
deriving Repr

/-- A locally stored child item of a `BaseCollection`, as far as the
collection operations of models.py inspect it: its platform `id`
(absent until created), its `parent` and `dataset` ownership references,
and its `name`. -/
structure Item where
  id : Option String
  parent : Option String
  dataset : Option String
  name : String
deriving DecidableEq, Repr

/-- The Python exceptions the embedded code can raise, one constructor per
`raise` site (plus the implicit `TypeError`/`KeyError`/`AttributeError`
sites of the interpreter). -/
inductive PyErr where
  /-- Exception raised by `BaseNode._check_exists`. -/
  | notCreated
  /-- Exception raised by `BaseCollection.remove` when an item is not in
  the loaded `_items` list. -/
  | staleItem (item : Item)
  /-- TypeError raised by `item not in self._items` when `_items` is the
  `None` sentinel. -/
  | noneNotIterable
  /-- KeyError from `data[obj_key]` when the object key is missing. -/
  | keyError (k : String)
  /-- TypeError from calling `cls.__init__` with bad keyword structure. -/
  | typeError (msg : String)
  /-- AttributeError from using a value of the wrong runtime type. -/
  | attrError (msg : String)
  /-- Exception raised by `BaseDataNode.__init__` for a parent that is
  neither a string, `None`, nor a `Collection`. -/
  | invalidParent
deriving DecidableEq, Repr

/-! ## Field Reconciler (BaseNode.from_dict, models.py lines 157-181) -/

/-- One reconciliation step of `BaseNode.from_dict`: try the lower-cased
key, then the camelCase transliteration, then the digit transliteration
against the accepted argument set; fall back to the verbatim wire key. -/
def reconcile_key (class_args : List String) (k : String) : String :=
  let k_lower := lowerStr k
  let k_camel := camelSub k
  let k_camel_num := digitSub k
  if class_args.contains k_lower then k_lower
  else if class_args.contains k_camel then k_camel
  else if class_args.contains k_camel_num then k_camel_num
  else k

/-- A wire key that matches none of the three reconciliation rules and is
therefore used verbatim (models.py line 178). -/
def fallsThrough (class_args : List String) (k : String) : Prop :=
  class_args.contains (lowerStr k) = false ∧
  class_args.contains (camelSub k) = false ∧
  class_args.contains (digitSub k) = false

instance (class_args : List String) (k : String) : Decidable (fallsThrough class_args k) := by
  unfold fallsThrough; infer_instance

/-- The `co_varnames` of `object` (base case of `_get_all_class_args`). -/
def object_varnames : List String := []

/-- The `co_varnames` of `BaseNode.__init__` (models.py line 139). -/
def BaseNode_varnames : List String := [("self"), ("id")]

/-- The `co_varnames` of `BaseDataNode.__init__` (models.py lines 223-228):
its parameters; the body introduces no further local variables. -/
def BaseDataNode_varnames : List String :=
  [("self"), ("name"), ("type"), ("parent"), ("owner_id"), ("dataset_id"),
   ("id"), ("provenance_id"), ("kwargs")]

/-- The `co_varnames` of `File.__init__` (models.py line 841). -/
def File_varnames : List String :=
  [("self"), ("name"), ("s3_key"), ("s3_bucket"), ("file_type"), ("size"),
   ("pkg_id"), ("kwargs")]

/-- Python `_get_all_class_args(File)` (models.py lines 119-129): the union of the
constructor variable names along the chain File -> BaseDataNode ->
BaseNode -> object. -/
def file_class_args : List String :=
  object_varnames ++ BaseNode_varnames ++ BaseDataNode_varnames ++ File_varnames

/-! ## Type Resolver (get_package_class, models.py lines 21-41) -/

/-- The entity classes `get_package_class` can return. -/
inductive PkgClass where
  | dataset
  | collection
  | timeSeries
  | tabular
  | dataPackage
deriving DecidableEq, Repr

/-- First-match lookup in an association-list dictionary. -/
def wlookup : List (String × WVal) → String → Option WVal
  | [], _ => none
  | (k, v) :: rest, key => if k == key then some v else wlookup rest key

/-- models.py `get_package_class`: pick the `content` envelope when the
key exists (else the record itself), resolve `Dataset` when no
`packageType` tag is present, otherwise lower-case the tag and match the
fixed table, defaulting to `DataPackage`. A tag that is not a string makes
Python fail on `.lower()` (AttributeError); a `content` value that is not
a dictionary makes the `in` test ill-typed, modelled as a TypeError. -/
def get_package_class (data : List (String × WVal)) : Except PyErr PkgClass :=
  let contentV := (wlookup data ("content")).getD (.wdict data)
  match contentV with
  | .wdict content =>
    match wlookup content ("packageType") with
    | none => .ok .dataset
    | some (.wstr s) =>
      let ptype := lowerStr s
      .ok (if ptype = ("collection") then .collection
           else if ptype = ("timeseries") then .timeSeries
           else if ptype = ("tabular") then .tabular
           else if ptype = ("dataset") then .dataset
           else .dataPackage)
    | some _ => .error (.attrError ("lower"))
  | _ => .error (.typeError ("argument of type is not iterable"))

/-! ## Entity construction: BaseNode.from_dict for File
(models.py lines 143-194, 217-247, 841-849) -/

/-- Python `content.pop('id', None)` on the association-list dictionary:
the popped value (if the key is present) and the remaining entries. -/
def popId : List (String × WVal) → Option WVal × List (String × WVal)
  | [] => (none, [])
  | (k, v) :: rest =>
    if k == ("id") then (some v, rest)
    else
      let r := popId rest
      (r.1, (k, v) :: r.2)

/-- Python dictionary assignment `d[key] = v`: overwrite in place if the
key exists, else append. -/
def upsert : List (String × WVal) → String → WVal → List (String × WVal)
  | [], key, v => [(key, v)]
  | (k, w) :: rest, key, v =>
    if k == key then (key, v) :: rest else (k, w) :: upsert rest key v

/-- The kwargs-building loop of `BaseNode.from_dict` (models.py lines
162-181): each wire key is reconciled and its value assigned into the
kwargs dictionary. -/
def buildKwargs (class_args : List String) (entries : List (String × WVal)) : List (String × WVal) :=
  entries.foldl (fun kw kv => upsert kw (reconcile_key class_args kv.1) kv.2) []

/-- The attribute set a `File` instance carries after
`File.__init__` -> `BaseDataNode.__init__` -> `BaseNode.__init__` has run
(models.py lines 139-141, 230-247, 842-849). Python attributes defaulting
to `None` hold `WVal.wnull`. -/
structure FileObj where
  id : WVal
  name : WVal
  type : WVal
  parent : WVal
  dataset : WVal
  owner_id : WVal
  provenance_id : WVal
  state : WVal
  created_at : WVal
  updated_at : WVal
  s3_key : WVal
  s3_bucket : WVal
  size : WVal
  pkg_id : WVal
  local_path : WVal
deriving Repr

/-- Python keyword lookup `kwargs.get(k)` over the assembled keyword set. -/
def kwget (kwargs : List (String × WVal)) (k : String) : Option WVal :=
  wlookup kwargs k

/-- Calling `File.__init__(item, **kwargs)` (models.py line 841) with the
keyword set produced by `from_dict`:

* a `self` keyword, or a `type` keyword (which would collide with the
  explicit `type=file_type` of the `super` call on line 842), is a
  Python TypeError at call time;
* the required positional parameters `name`, `s3_key`, `s3_bucket`,
  `file_type`, `size` must be bound, else TypeError;
* `BaseDataNode.__init__` accepts a `parent` that is a string or `None`
  and raises otherwise (lines 234-239; a `Collection` instance cannot
  arrive through a wire record);
* `state`, `createdAt`, `updatedAt` are popped from the catch-all kwargs
  (lines 245-247); every other unmatched keyword lands in the catch-all
  `**kwargs` and is discarded. -/
def File_init (kwargs : List (String × WVal)) : Except PyErr FileObj :=
  if (kwget kwargs ("self")).isSome then .error (.typeError ("multiple values for argument self"))
  else if (kwget kwargs ("type")).isSome then .error (.typeError ("multiple values for keyword argument type"))
  else
    match kwget kwargs ("name"), kwget kwargs ("s3_key"), kwget kwargs ("s3_bucket"),
          kwget kwargs ("file_type"), kwget kwargs ("size") with
    | some nameV, some s3keyV, some s3bucketV, some fileTypeV, some sizeV =>
      let parentV := (kwget kwargs ("parent")).getD .wnull
      match parentV with
      | .wstr p =>
        .ok { id := (kwget kwargs ("id")).getD .wnull
              name := nameV
              type := fileTypeV
              parent := .wstr p
              dataset := (kwget kwargs ("dataset_id")).getD .wnull
              owner_id := (kwget kwargs ("owner_id")).getD .wnull
              provenance_id := (kwget kwargs ("provenance_id")).getD .wnull
              state := (kwget kwargs ("state")).getD .wnull
              created_at := (kwget kwargs ("createdAt")).getD .wnull
              updated_at := (kwget kwargs ("updatedAt")).getD .wnull
              s3_key := s3keyV
              s3_bucket := s3bucketV
              size := sizeV
              pkg_id := (kwget kwargs ("pkg_id")).getD .wnull
              local_path := .wnull }
      | .wnull =>
        .ok { id := (kwget kwargs ("id")).getD .wnull
              name := nameV
              type := fileTypeV
              parent := .wnull
              dataset := (kwget kwargs ("dataset_id")).getD .wnull
              owner_id := (kwget kwargs ("owner_id")).getD .wnull
              provenance_id := (kwget kwargs ("provenance_id")).getD .wnull
              state := (kwget kwargs ("state")).getD .wnull
              created_at := (kwget kwargs ("createdAt")).getD .wnull
              updated_at := (kwget kwargs ("updatedAt")).getD .wnull
              s3_key := s3keyV
              s3_bucket := s3bucketV
              size := sizeV
              pkg_id := (kwget kwargs ("pkg_id")).getD .wnull
              local_path := .wnull }
      | _ => .error .invalidParent
    | _, _, _, _, _ => .error (.typeError ("missing required argument"))

/-- Construction `File.from_dict(data)` = `BaseNode.from_dict` with `cls = File`
(models.py lines 143-194): select the `content` envelope (`_object_key`),
pop `id`, reconcile every remaining wire key against
`_get_all_class_args(File)`, call the constructor with the assembled
keyword set, then assign the popped id when it was present and not null. -/
def File_from_dict (data : List (String × WVal)) : Except PyErr FileObj :=
  match wlookup data ("content") with
  | none => .error (.keyError ("content"))
  | some contentV =>
    match contentV with
    | .wdict content =>
      let popped := popId content
      let kwargs := buildKwargs file_class_args popped.2
      match File_init kwargs with
      | .error e => .error e
      | .ok f =>
        match popped.1 with
        | some .wnull => .ok f
        | some v => .ok { f with id := v }
        | none => .ok f
    | _ => .error (.attrError ("pop"))

/-! ## Property store (models.py lines 55-116)

The value conversion helpers `get_data_type` and `value_as_type` live in
blackfynn/utils.py, which is not among the embedded sources; they are
modelled from the specification (section 3: the type is inferred from the
value's runtime shape; section 8: stringifying and re-parsing a value of a
supported data type is exact). -/

/-- The decimal digit characters, used to model Python `str` on numbers. -/
def digitChar : Nat → Char
  | 0 => '0'
  | 1 => '1'
  | 2 => '2'
  | 3 => '3'
  | 4 => '4'
  | 5 => '5'
  | 6 => '6'
  | 7 => '7'
  | 8 => '8'
  | 9 => '9'
  | _ => '?'

/-- Numeric value of a decimal digit character. -/
def charVal (c : Char) : Nat := c.toNat - 48

/-- Python `str` of a natural number: its decimal digits, most significant
first. -/
def natRepr (n : Nat) : String :=
  if n = 0 then ("0") else String.mk (((Nat.digits 10 n).map digitChar).reverse)

/-- Parse a non-empty all-digit string back into a natural number, as
Python `int(s)` does for such strings. -/
def parseNat (s : String) : Option Nat :=
  if s.data ≠ [] ∧ s.data.all Char.isDigit then
    some (Nat.ofDigits 10 ((s.data.map charVal).reverse))
  else none

/-- Python `str` of an integer. -/
def intRepr (n : Int) : String :=
  if n < 0 then ("-") ++ natRepr n.natAbs else natRepr n.natAbs

/-- Python `int(s)` on an optionally minus-signed decimal string. -/
def parseInt (s : String) : Option Int :=
  match s.data with
  | c :: rest =>
    if c = '-' then (parseNat (String.mk rest)).map (fun m => -(Int.ofNat m))
    else (parseNat s).map Int.ofNat
  | [] => none

/-- The runtime shapes a property value can take. Python 2.7 `str` on a
float (or a datetime) produces a string that `float` (dateutil) parses
back exactly, so `pdouble` and `pdate` carry that printed literal. -/
inductive PValue where
  | pstr (s : String)
  | pint (n : Int)
  | pdouble (lit : String)
  | pdate (lit : String)
  | puser (s : String)
  | pbool (b : Bool)
deriving DecidableEq, Repr

/-- Python `str(value)` as used by `Property.as_dict` (models.py line 90). -/
def pyStr : PValue → String
  | .pstr s => s
  | .pint n => intRepr n
  | .pdouble lit => lit
  | .pdate lit => lit
  | .puser s => s
  | .pbool b => if b then ("True") else ("False")

/-- The list `Property._data_types` (models.py line 69). -/
def property_data_types : List String :=
  [("string"), ("integer"), ("double"), ("date"), ("user"), ("boolean")]

/-- Modelled from the spec: `blackfynn.utils.value_as_type` (blackfynn/
utils.py is not under src/). Converts a value to the runtime shape of the
given (already lower-cased) data type; the wire path always feeds it the
`str` form of the original value, and for each supported type the
conversion inverts that stringification (spec sections 3 and 8). -/
def value_as_type (value : PValue) (dt : String) : Option PValue :=
  if dt = ("string") then some (.pstr (pyStr value))
  else if dt = ("integer") then (parseInt (pyStr value)).map .pint
  else if dt = ("double") then some (.pdouble (pyStr value))
  else if dt = ("date") then some (.pdate (pyStr value))
  else if dt = ("user") then some (.puser (pyStr value))
  else if dt = ("boolean") then some (.pbool (pyStr value = ("True")))
  else none

/-- Modelled from the spec: `blackfynn.utils.get_data_type` (blackfynn/
utils.py is not under src/). Infers the data type from the value's runtime
shape (spec section 3). -/
def get_data_type : PValue → String × PValue
  | .pstr s => (("string"), .pstr s)
  | .pint n => (("integer"), .pint n)
  | .pdouble lit => (("double"), .pdouble lit)
  | .pdate lit => (("date"), .pdate lit)
  | .puser s => (("user"), .puser s)
  | .pbool b => (("boolean"), .pbool b)

/-- A `Property` instance (models.py lines 70-82). -/
structure Property where
  key : String
  value : PValue
  data_type : String
  fixed : Bool
  hidden : Bool
  category : String
deriving DecidableEq, Repr

/-- Constructor `Property.__init__` (models.py lines 70-82): with no usable
`data_type`, infer type and value; otherwise convert the value to the
given type (storing the `data_type` string as passed). A failing
conversion is a Python ValueError, modelled as `none`. -/
def Property.init (key : String) (value : PValue) (fixed : Bool) (hidden : Bool)
    (category : String) (data_type : Option String) : Option Property :=
  match data_type with
  | none =>
    let dv := get_data_type value
    some { key := key, value := dv.2, data_type := dv.1, fixed := fixed,
           hidden := hidden, category := category }
  | some dt =>
    if property_data_types.contains (lowerStr dt) then
      (value_as_type value (lowerStr dt)).map
        (fun v => { key := key, value := v, data_type := dt, fixed := fixed,
                    hidden := hidden, category := category })
    else
      let dv := get_data_type value
      some { key := key, value := dv.2, data_type := dv.1, fixed := fixed,
             hidden := hidden, category := category }

/-- The wire form of a property produced by `Property.as_dict`
(models.py lines 84-95): the value is stringified. -/
structure PropertyWire where
  key : String
  value : String
  dataType : String
  fixed : Bool
  hidden : Bool
  category : String
deriving DecidableEq, Repr

/-- Serialization `Property.as_dict` (models.py lines 84-95). -/
def Property.as_dict (p : Property) : PropertyWire :=
  { key := p.key, value := pyStr p.value, dataType := p.data_type,
    fixed := p.fixed, hidden := p.hidden, category := p.category }

/-- Reconstruction `Property.from_dict` (models.py lines 97-109): rebuild the property
from its wire form, with the category supplied by the caller. -/
def Property.from_dict (d : PropertyWire) (category : String) : Option Property :=
  Property.init d.key (.pstr d.value) d.fixed d.hidden category (some d.dataType)

/-- The stored value has the runtime shape of the stored data type, as is
the case for every property built by `Property.__init__` with a supported
data type. -/
def dataTypeMatches (dt : String) (v : PValue) : Bool :=
  match v with
  | .pstr _ => lowerStr dt == ("string")
  | .pint _ => lowerStr dt == ("integer")
  | .pdouble _ => lowerStr dt == ("double")
  | .pdate _ => lowerStr dt == ("date")
  | .puser _ => lowerStr dt == ("user")
  | .pbool _ => lowerStr dt == ("boolean")

/-! ## Collection mutation and lazy loading
(BaseCollection, models.py lines 482-548) -/

/-- The remote platform as seen through the verbs the embedded collection
code calls (`self._api.core.create`, `self._api.data.delete`, and the
collection `_get_method`). The record counts the remote round trips each
verb performs, so that the lazy-loading and atomicity claims can be
stated; `childrenOf` is the store's truth about a collection's direct
children at fetch time (`none` when the store reports no children, in
which case the freshly parsed collection keeps its unloaded sentinel,
because `BaseCollection.from_dict` only calls `add` with the parsed
children). -/
structure Api where
  createCount : Nat
  deleteCalls : List (List Item)
  fetchCount : Nat
  childrenOf : String → Option (List Item)
  nextId : Nat

/-- Fresh platform identifier assigned by the `create` verb. -/
def freshName (n : Nat) : String := ("N:package:") ++ natRepr n

/-- Modelled from the spec: `self._api.core.create` (blackfynn/api/core.py
is not under src/). Spec section 4.4: only an item with no id yet is
created remotely, and the returned entity carries the assigned id with the
submitted fields; an item that already exists is returned unchanged with
no remote call. -/
def core_create (api : Api) (item : Item) : Api × Item :=
  match item.id with
  | some _ => (api, item)
  | none =>
    ({ api with createCount := api.createCount + 1, nextId := api.nextId + 1 },
     { item with id := some (freshName api.nextId) })

/-- Modelled from the spec: `self._api.data.delete(*items)` (blackfynn/
api/data.py is not under src/), the remote delete verb of spec section 6;
the call is recorded with the items it names. -/
def data_delete (api : Api) (items : List Item) : Api :=
  { api with deleteCalls := api.deleteCalls ++ [items] }

/-- Modelled from the spec: the collection `_get_method`
(`self._api.datasets.get` / `self._api.packages.get`, blackfynn/api/ is
not under src/): one remote round trip that re-fetches the collection and
returns the freshly parsed `_items` of the result (spec section 4.4). -/
def coll_get (api : Api) (cid : String) : Api × Option (List Item) :=
  ({ api with fetchCount := api.fetchCount + 1 }, api.childrenOf cid)

/-- Which `BaseCollection` subclass the receiver is: `Dataset.__init__`
(models.py lines 1758-1765) removes the `parent`/`type`/`state`/`dataset`
attributes, so `hasattr(self, 'dataset')` is true exactly for
`Collection` receivers. -/
inductive CKind where
  | dataset
  | collection
deriving DecidableEq, Repr

/-- A `BaseCollection` instance as inspected by `add`/`remove`/`items`:
its kind, its platform `id`, its `dataset` attribute (meaningful only for
`Collection` receivers), and the `_items` cache, where `none` is the
unloaded sentinel of `BaseCollection.__init__` (models.py line 492). -/
structure Coll where
  kind : CKind
  id : Option String
  dataset : Option String
  _items : Option (List Item)
deriving Repr

/-- One iteration of the `BaseCollection.add` loop (models.py lines
499-515): initialize `_items` if needed, set the item's ownership fields
according to the receiver kind, call the `create` verb, merge the returned
object into the item (`item.__dict__.update(new_item.__dict__)` replaces
every attribute), and append. -/
def addOne (api : Api) (self : Coll) (item : Item) : Api × Coll × Item :=
  let items0 := self._items.getD []
  let item1 :=
    match self.kind with
    | CKind.dataset => { item with parent := none, dataset := self.id }
    | CKind.collection => { item with parent := self.id, dataset := self.dataset }
  let r := core_create api item1
  (r.1, { self with _items := some (items0 ++ [r.2]) }, r.2)

/-- The `for item in items` loop of `BaseCollection.add`, returning the
final api state, the mutated receiver and the mutated items in order. -/
def addLoop (api : Api) (self : Coll) : List Item → Api × Coll × List Item
  | [] => (api, self, [])
  | item :: rest =>
    let r1 := addOne api self item
    let r2 := addLoop r1.1 r1.2.1 rest
    (r2.1, r2.2.1, r1.2.2 :: r2.2.2)

/-- Method `BaseCollection.add` (models.py lines 494-515): `_check_exists`, then
the per-item loop. -/
def Coll.add (api : Api) (self : Coll) (items : List Item) :
    Except PyErr (Api × Coll × List Item) :=
  match self.id with
  | none => .error .notCreated
  | some _ => .ok (addLoop api self items)

/-- Equality `BaseNode.__eq__` (models.py lines 196-200): two existing nodes are
equal iff their ids match; otherwise Python compares references, modelled
as structural identity (the theorems below only use it on existing
items). -/
def nodeEq (a b : Item) : Bool :=
  match a.id, b.id with
  | some x, some y => x == y
  | _, _ => a == b

/-- Python `item in l` for a list of items, via `nodeEq`. -/
def memberOf (l : List Item) (item : Item) : Bool :=
  l.any (fun x => nodeEq x item)

/-- The membership-checking loop of `BaseCollection.remove` (models.py
lines 522-524): `item not in self._items` is a TypeError when `_items` is
still the `None` sentinel, and the stale-reference Exception when the item
is missing from the loaded list. -/
def checkAll (st : Option (List Item)) : List Item → Option PyErr
  | [] => none
  | item :: rest =>
    match st with
    | none => some .noneNotIterable
    | some l => if memberOf l item then checkAll (some l) rest else some (.staleItem item)

/-- Method `BaseCollection.remove` (models.py lines 517-528): `_check_exists`,
the membership check over all named items, then one `delete` verb call for
all of them and the reset of `_items` to the unloaded sentinel. The
unchanged `(api, self)` pair is returned alongside the error when one is
raised, making the atomicity of a failed call explicit. -/
def Coll.remove (api : Api) (self : Coll) (items : List Item) :
    (Api × Coll) × Option PyErr :=
  match self.id with
  | none => ((api, self), some .notCreated)
  | some _ =>
    match checkAll self._items items with
    | some e => ((api, self), some e)
    | none => ((data_delete api items, { self with _items := none }), none)

/-- The `items` property (models.py lines 530-548): `_check_exists`; if
the cache is unloaded, one fetch through `_get_method`, adopting the fresh
children or the empty list when the store reports none; always return the
(now loaded) cache. -/
def Coll.itemsRead (api : Api) (self : Coll) :
    Except PyErr (Api × Coll × List Item) :=
  match self.id with
  | none => .error .notCreated
  | some cid =>
    match self._items with
    | some l => .ok (api, self, l)
    | none =>
      let r := coll_get api cid
      let l := r.2.getD []
      .ok (r.1, { self with _items := some l }, l)

/-! ## Path-tree builder and merger (cli_utils.py lines 13-32) -/

/-- A Python value appearing in the per-path trees of
`cli_utils.make_tree`: either an entity leaf (an object constructed from
the store, identified by its platform id, which is how `BaseNode.__eq__`
compares two existing objects) or a dictionary, embedded as a chain of
key/value entries in insertion order. -/
inductive PyVal where
  | obj (id : String)
  | dnil
  | dcons (key : String) (value : PyVal) (rest : PyVal)
deriving DecidableEq, Repr

/-- Python `isinstance(v, dict)` for tree values. -/
def PyVal.isDict : PyVal → Bool
  | .obj _ => false
  | _ => true

/-- Python `key in d` / `d[key]` lookup over the dictionary chain. -/
def dlookup : PyVal → String → Option PyVal
  | .dcons k v r, key => if k == key then some v else dlookup r key
  | _, _ => none

/-- Python `d[key] = v` over the dictionary chain: replace in place if the
key exists, append otherwise. Item assignment on a non-dict is
unreachable in `merge`, which only assigns into dictionaries. -/
def dset : PyVal → String → PyVal → PyVal
  | .dnil, key, v => .dcons key v .dnil
  | .dcons k w r, key, v =>
    if k == key then .dcons k v r else .dcons k w (dset r key v)
  | .obj i, _, _ => .obj i

/-- Python `a[key] == b[key]` in the branch of `merge` where at least one
side is not a dictionary: two entity objects compare by id
(`BaseNode.__eq__`, both exist), and a dictionary never equals a
non-dictionary. -/
def pyEqNonDict : PyVal → PyVal → Bool
  | .obj i, .obj j => i == j
  | _, _ => false

/-- Function `cli_utils.make_tree(path)` (lines 13-18) over the path of entity ids:
the singly nested mapping keyed by id, innermost value the leaf object
itself. An empty path is a Python IndexError, modelled as `none`. -/
def make_tree : List String → Option PyVal
  | [] => none
  | [p] => some (.dcons p (.obj p) .dnil)
  | p :: rest => (make_tree rest).map (fun t => .dcons p t .dnil)

/-- Function `cli_utils.merge(a, b, path)` (lines 20-32): fold the entries of `b`
into `a`; recursively merge when both values are dictionaries, keep equal
leaves, raise the conflict error naming the dotted key path otherwise, and
insert keys missing from `a`. -/
def merge (a : PyVal) (b : PyVal) (path : List String) : Except String PyVal :=
  match b with
  | .dcons key bv brest =>
    match dlookup a key with
    | some av =>
      if av.isDict && bv.isDict then
        match merge av bv (path ++ [key]) with
        | .ok m => merge (dset a key m) brest path
        | .error e => .error e
      else if pyEqNonDict av bv then merge a brest path
      else .error (("Conflict at ") ++ joinDot (path ++ [key]))
    | none => merge (dset a key bv) brest path
  | _ => .ok a

/-! ## Concrete instances used by the claim witnesses, and derived predicates -/

/-- Concrete wire record used by the claim C7 witness: an unknown tag
inside a content envelope. -/
def c7data : List (String × WVal) :=
  [(("content"), .wdict [(("packageType"), .wstr ("Frobnicate"))])]

/-- The content envelope of `c7data`. -/
def c7content : List (String × WVal) :=
  [(("packageType"), .wstr ("Frobnicate"))]

/-- Concrete property used by the claim C4 witness: a boolean-typed
property with value False, the case the claim singles out. -/
def c4prop : Property :=
  { key := ("checked"), value := .pbool false, data_type := ("boolean"),
    fixed := false, hidden := true, category := ("Blackfynn") }

/-- Concrete api state used by the claim C1 witness. -/
def c1api : Api :=
  { createCount := 0, deleteCalls := [], fetchCount := 0,
    childrenOf := fun _ => none, nextId := 0 }

/-- Concrete Dataset receiver used by the claim C1 witness. -/
def c1coll : Coll :=
  { kind := .dataset, id := some ("N:dataset:1"), dataset := none, _items := none }

/-- Concrete locally built item used by the claim C1 witness. -/
def c1item : Item := { id := none, parent := none, dataset := none, name := ("pkg") }

/-- The item `c1item` as mutated by `Coll.add c1api c1coll [c1item]`. -/
def c1out : Item :=
  { c1item with
    id := some (freshName 0), parent := none, dataset := some ("N:dataset:1") }

/-- The result that `Coll.add c1api c1coll [c1item]` computes to. -/
def c1res : Api × Coll × List Item :=
  ({ c1api with
     createCount := 1, nextId := 1 },
   { c1coll with
     _items := some [c1out] },
   [c1out])

/-- Concrete api state used by the claim C6 witness. -/
def c6api : Api :=
  { createCount := 0, deleteCalls := [], fetchCount := 0,
    childrenOf := fun _ => none, nextId := 0 }

/-- Concrete Collection receiver used by the claim C6 witness. -/
def c6coll : Coll :=
  { kind := .collection, id := some ("N:collection:1"),
    dataset := some ("N:dataset:1"), _items := none }

/-- Concrete locally built (id-less) item used by the claim C6 witness. -/
def c6item : Item := { id := none, parent := none, dataset := none, name := ("f") }

/-- The item `c6item` as mutated by `Coll.add c6api c6coll [c6item]`. -/
def c6out : Item :=
  { c6item with
    id := some (freshName 0), parent := some ("N:collection:1"),
    dataset := some ("N:dataset:1") }

/-- The result that `Coll.add c6api c6coll [c6item]` computes to. -/
def c6res : Api × Coll × List Item :=
  ({ c6api with
     createCount := 1, nextId := 1 },
   { c6coll with
     _items := some [c6out] },
   [c6out])

/-- Concrete api state used by the claim C2 witness: the store reports one
child for the collection. -/
def c2api : Api :=
  { createCount := 0, deleteCalls := [], fetchCount := 0,
    childrenOf := fun _ =>
      some [{ id := some ("N:package:7"), parent := some ("N:collection:2"),
              dataset := some ("N:dataset:2"), name := ("child") }],
    nextId := 0 }

/-- Concrete never-loaded Collection used by the claim C2 witness. -/
def c2coll : Coll :=
  { kind := .collection, id := some ("N:collection:2"),
    dataset := some ("N:dataset:2"), _items := none }

/-- Concrete api state used by the claim C9 witness. -/
def c9api : Api :=
  { createCount := 0, deleteCalls := [], fetchCount := 0,
    childrenOf := fun _ => none, nextId := 0 }

/-- Concrete loaded child item used by the claim C9 witness. -/
def c9item : Item :=
  { id := some ("N:package:3"), parent := some ("N:collection:3"),
    dataset := some ("N:dataset:3"), name := ("p") }

/-- Concrete loaded Collection used by the claim C9 witness. -/
def c9coll : Coll :=
  { kind := .collection, id := some ("N:collection:3"),
    dataset := some ("N:dataset:3"), _items := some [c9item] }

/-- Concrete api state used by the claim C10 witness. -/
def c10api : Api :=
  { createCount := 0, deleteCalls := [], fetchCount := 0,
    childrenOf := fun _ => none, nextId := 0 }

/-- Concrete never-loaded Collection used by the claim C10 witness. -/
def c10coll : Coll :=
  { kind := .collection, id := some ("N:collection:4"),
    dataset := some ("N:dataset:4"), _items := none }

/-- Concrete existing item used by the claim C10 witness. -/
def c10item : Item :=
  { id := some ("N:package:4"), parent := some ("N:collection:4"),
    dataset := some ("N:dataset:4"), name := ("q") }

/-- The keyword names `File.__init__` (with its superclass chain) actually
reads from the assembled keyword set; every other keyword lands in the
catch-all kwargs and is discarded. -/
def fileReadKeys : List String :=
  [("self"), ("type"), ("name"), ("s3_key"), ("s3_bucket"), ("file_type"),
   ("size"), ("parent"), ("id"), ("dataset_id"), ("owner_id"),
   ("provenance_id"), ("state"), ("createdAt"), ("updatedAt"), ("pkg_id")]

/-- Structural validity of a File wire content block: the reconciled
keyword set binds the required constructor parameters, binds no `self` or
`type` keyword (which would be a call-time TypeError), and carries a
parent that is a string or null. -/
def structurallyValidFile (content : List (String × WVal)) : Bool :=
  let kw := buildKwargs file_class_args (popId content).2
  (kwget kw ("self")).isNone && (kwget kw ("type")).isNone &&
  (kwget kw ("name")).isSome && (kwget kw ("s3_key")).isSome &&
  (kwget kw ("s3_bucket")).isSome && (kwget kw ("file_type")).isSome &&
  (kwget kw ("size")).isSome &&
  (match (kwget kw ("parent")).getD .wnull with
   | .wstr _ => true
   | .wnull => true
   | _ => false)

/-- Wire content block used by the claim C8 counterexample and witness: a
structurally valid File record. -/
def c8content : List (String × WVal) :=
  [(("name"), .wstr ("f")), (("s3key"), .wstr ("k")), (("s3bucket"), .wstr ("b")),
   (("fileType"), .wstr ("PDF")), (("size"), .wint 10), (("id"), .wstr ("N:file:1"))]

/-- Unrecognized wire value used by the claim C8 witness. -/
def c8wval : WVal := .wstr ("x")

/-! ## Helper lemmas: decimal stringification round trip -/

theorem charVal_digitChar (d : Nat) (hd : d < 10) : charVal (digitChar d) = d := by
  interval_cases d <;> rfl

theorem isDigit_digitChar (d : Nat) (hd : d < 10) : (digitChar d).isDigit = true := by
  interval_cases d <;> rfl

theorem parseNat_natRepr (n : Nat) : parseNat (natRepr n) = some n := by
  by_cases h0 : n = 0
  · subst h0; decide
  · have hne : Nat.digits 10 n ≠ [] := Nat.digits_ne_nil_iff_ne_zero.mpr h0
    have hlt : ∀ d ∈ Nat.digits 10 n, d < 10 := fun d hd =>
      Nat.digits_lt_base (by norm_num) hd
    unfold natRepr parseNat
    rw [if_neg h0]
    have hdata : (String.mk (((Nat.digits 10 n).map digitChar).reverse)).data
        = ((Nat.digits 10 n).map digitChar).reverse := rfl
    rw [hdata]
    have hcond : ((Nat.digits 10 n).map digitChar).reverse ≠ [] ∧
        (((Nat.digits 10 n).map digitChar).reverse).all Char.isDigit := by
      constructor
      · simp [hne]
      · rw [List.all_eq_true]
        intro c hc
        rw [List.mem_reverse, List.mem_map] at hc
        obtain ⟨d, hd, rfl⟩ := hc
        exact isDigit_digitChar d (hlt d hd)
    rw [if_pos hcond]
    have hlist : ((((Nat.digits 10 n).map digitChar).reverse).map charVal).reverse
        = Nat.digits 10 n := by
      calc ((((Nat.digits 10 n).map digitChar).reverse).map charVal).reverse
          = ((((Nat.digits 10 n).map digitChar).map charVal).reverse).reverse := by
            rw [List.map_reverse]
        _ = (((Nat.digits 10 n).map digitChar).map charVal) := List.reverse_reverse _
        _ = (Nat.digits 10 n).map (fun d => charVal (digitChar d)) := by
            rw [List.map_map]; rfl
        _ = (Nat.digits 10 n).map id := List.map_congr_left
            (fun d hd => charVal_digitChar d (hlt d hd))
        _ = Nat.digits 10 n := List.map_id _
    rw [hlist, Nat.ofDigits_digits]

theorem natRepr_all_digits (m : Nat) : ∀ c ∈ (natRepr m).data, c.isDigit = true := by
  unfold natRepr
  by_cases h0 : m = 0
  · rw [if_pos h0]; decide
  · rw [if_neg h0]
    intro c hc
    have hlt : ∀ d ∈ Nat.digits 10 m, d < 10 := fun d hd =>
      Nat.digits_lt_base (by norm_num) hd
    rw [show (String.mk (((Nat.digits 10 m).map digitChar).reverse)).data
        = ((Nat.digits 10 m).map digitChar).reverse from rfl,
      List.mem_reverse, List.mem_map] at hc
    obtain ⟨d, hd, rfl⟩ := hc
    exact isDigit_digitChar d (hlt d hd)

theorem natRepr_ne_nil (m : Nat) : (natRepr m).data ≠ [] := by
  unfold natRepr
  by_cases h0 : m = 0
  · rw [if_pos h0]; decide
  · rw [if_neg h0]
    have hne : Nat.digits 10 m ≠ [] := Nat.digits_ne_nil_iff_ne_zero.mpr h0
    simpa using hne

theorem parseInt_intRepr (n : Int) : parseInt (intRepr n) = some n := by
  by_cases hneg : n < 0
  · have h1 : intRepr n = ("-") ++ natRepr n.natAbs := by rw [intRepr, if_pos hneg]
    have h2 : (intRepr n).data = '-' :: (natRepr n.natAbs).data := by
      rw [h1, String.data_append]; rfl
    unfold parseInt
    simp only [h2, if_true]
    have h3 : String.mk ((natRepr n.natAbs).data) = natRepr n.natAbs := rfl
    rw [h3, parseNat_natRepr]
    simp only [Option.map_some']
    congr 1
    simp only [Int.ofNat_eq_natCast]
    omega
  · have h1 : intRepr n = natRepr n.natAbs := by rw [intRepr, if_neg hneg]
    rcases hd : (natRepr n.natAbs).data with _ | ⟨c, rest⟩
    · exact absurd hd (natRepr_ne_nil _)
    · have hcdig : c.isDigit = true := by
        apply natRepr_all_digits n.natAbs
        rw [hd]; exact List.mem_cons_self _ _
      have hcne : ¬ (c = '-') := by
        intro hcm; rw [hcm] at hcdig; exact absurd hcdig (by decide)
      unfold parseInt
      rw [h1]
      simp only [hd]
      rw [if_neg hcne, parseNat_natRepr]
      simp only [Option.map_some']
      congr 1
      simp only [Int.ofNat_eq_natCast]
      omega

/-! ## Claim C3: reconciliation of the s3 key variants -/

/-- C3 counterexample: the claim says the wire key S3Key reconciles to
s3_key, but it matches none of the three rules (the camelCase
transliteration prefixes an underscore to its leading capital, giving
_s3_key, and the digit transliteration gives S3_Key), so
`BaseNode.from_dict` keeps it verbatim. -/
theorem claim_C3_counterexample :
    reconcile_key file_class_args ("S3Key") ≠ ("s3_key") := by decide

/-- C3 (amended): for a File wire record, the keys s3key (digit rule) and
s3Key (camelCase rule) both reconcile to the local identifier s3_key,
first match winning among exact case-insensitive match, camelCase
transliteration and digit transliteration; the key S3Key matches none of
the three rules and falls back to the verbatim wire key. -/
theorem claim_C3 :
    reconcile_key file_class_args ("s3key") = ("s3_key") ∧
    reconcile_key file_class_args ("s3Key") = ("s3_key") ∧
    reconcile_key file_class_args ("S3Key") = ("S3Key") := by
  refine ⟨?_, ?_, ?_⟩ <;> decide

/-! ## Claim C7: type resolution -/

/-- C7: for every wire record whose type tag, when present in the
governing envelope, is a string: a record with no packageType tag
resolves to Dataset; a tag equal case-insensitively to collection,
timeseries, tabular or dataset resolves to the corresponding class; any
other tag resolves to the generic DataPackage; and resolution never
fails. The governing envelope is the value of the content key when one
exists, else the record itself. -/
theorem claim_C7 (data content : List (String × WVal))
    (hc : wlookup data ("content") = some (.wdict content) ∨
          (wlookup data ("content") = none ∧ content = data)) :
    (wlookup content ("packageType") = none →
       get_package_class data = .ok .dataset) ∧
    (∀ s, wlookup content ("packageType") = some (.wstr s) →
       get_package_class data =
         .ok (if lowerStr s = ("collection") then .collection
              else if lowerStr s = ("timeseries") then .timeSeries
              else if lowerStr s = ("tabular") then .tabular
              else if lowerStr s = ("dataset") then .dataset
              else .dataPackage)) ∧
    ((wlookup content ("packageType") = none ∨
      (∃ s, wlookup content ("packageType") = some (.wstr s))) →
       ∃ p, get_package_class data = .ok p) := by
  have hcont : (wlookup data ("content")).getD (.wdict data) = .wdict content := by
    rcases hc with h | ⟨h, rfl⟩
    · rw [h]; rfl
    · rw [h]; rfl
  refine ⟨?_, ?_, ?_⟩
  · intro h1
    simp only [get_package_class, hcont, h1]
  · intro s h1
    simp only [get_package_class, hcont, h1]
  · intro h1
    rcases h1 with h1 | ⟨s, h1⟩
    · exact ⟨.dataset, by simp only [get_package_class, hcont, h1]⟩
    · refine ⟨if lowerStr s = ("collection") then .collection
              else if lowerStr s = ("timeseries") then .timeSeries
              else if lowerStr s = ("tabular") then .tabular
              else if lowerStr s = ("dataset") then .dataset
              else .dataPackage, ?_⟩
      simp only [get_package_class, hcont, h1]

theorem claim_C7_witness :
    (wlookup c7data ("content") = some (.wdict c7content) ∨
     (wlookup c7data ("content") = none ∧ c7content = c7data)) ∧
    ((wlookup c7content ("packageType") = none →
       get_package_class c7data = .ok .dataset) ∧
     (∀ s, wlookup c7content ("packageType") = some (.wstr s) →
       get_package_class c7data =
         .ok (if lowerStr s = ("collection") then .collection
              else if lowerStr s = ("timeseries") then .timeSeries
              else if lowerStr s = ("tabular") then .tabular
              else if lowerStr s = ("dataset") then .dataset
              else .dataPackage)) ∧
     ((wlookup c7content ("packageType") = none ∨
       (∃ s, wlookup c7content ("packageType") = some (.wstr s))) →
        ∃ p, get_package_class c7data = .ok p)) :=
  ⟨Or.inl rfl, claim_C7 c7data c7content (Or.inl rfl)⟩

/-! ## Claim C4: Property wire round trip -/

/-- C4: for every Property whose stored value has the runtime shape of its
supported data type (string, integer, double, date, user or boolean),
reconstructing from the wire form round-trips:
`Property.from_dict(p.as_dict(), category=p.category)` returns a Property
equal to p on every component, including boolean and date values. -/
theorem claim_C4 (p : Property) (h : dataTypeMatches p.data_type p.value = true) :
    Property.from_dict (Property.as_dict p) p.category = some p := by
  obtain ⟨key, value, data_type, fixed, hidden, category⟩ := p
  cases value with
  | pstr s =>
    have h2 : (lowerStr data_type == ("string")) = true := h
    have h3 : lowerStr data_type = ("string") := eq_of_beq h2
    simp only [Property.from_dict, Property.as_dict, Property.init, h3]
    rfl
  | pint n =>
    have h2 : (lowerStr data_type == ("integer")) = true := h
    have h3 : lowerStr data_type = ("integer") := eq_of_beq h2
    simp only [Property.from_dict, Property.as_dict, Property.init, h3,
      value_as_type, pyStr, reduceIte]
    rw [parseInt_intRepr]
    rfl
  | pdouble lit =>
    have h2 : (lowerStr data_type == ("double")) = true := h
    have h3 : lowerStr data_type = ("double") := eq_of_beq h2
    simp only [Property.from_dict, Property.as_dict, Property.init, h3]
    rfl
  | pdate lit =>
    have h2 : (lowerStr data_type == ("date")) = true := h
    have h3 : lowerStr data_type = ("date") := eq_of_beq h2
    simp only [Property.from_dict, Property.as_dict, Property.init, h3]
    rfl
  | puser s =>
    have h2 : (lowerStr data_type == ("user")) = true := h
    have h3 : lowerStr data_type = ("user") := eq_of_beq h2
    simp only [Property.from_dict, Property.as_dict, Property.init, h3]
    rfl
  | pbool b =>
    have h2 : (lowerStr data_type == ("boolean")) = true := h
    have h3 : lowerStr data_type = ("boolean") := eq_of_beq h2
    cases b
    · simp only [Property.from_dict, Property.as_dict, Property.init, h3]
      rfl
    · simp only [Property.from_dict, Property.as_dict, Property.init, h3]
      rfl

theorem claim_C4_witness :
    dataTypeMatches c4prop.data_type c4prop.value = true ∧
    Property.from_dict (Property.as_dict c4prop) c4prop.category = some c4prop :=
  ⟨by decide, claim_C4 c4prop (by decide)⟩

/-! ## Helper lemmas: collection operations -/

theorem core_create_parent (api : Api) (it : Item) :
    ((core_create api it).2).parent = it.parent := by
  cases h : it.id <;> simp [core_create, h]

theorem core_create_dataset (api : Api) (it : Item) :
    ((core_create api it).2).dataset = it.dataset := by
  cases h : it.id <;> simp [core_create, h]

theorem addOne_kind (api : Api) (self : Coll) (item : Item) :
    ((addOne api self item).2.1).kind = self.kind := rfl

theorem addOne_id (api : Api) (self : Coll) (item : Item) :
    ((addOne api self item).2.1).id = self.id := rfl

theorem addOne_coll_dataset (api : Api) (self : Coll) (item : Item) :
    ((addOne api self item).2.1).dataset = self.dataset := rfl

theorem addOne_item_prop (api : Api) (self : Coll) (item : Item) (rid : String)
    (hid : self.id = some rid) :
    (self.kind = CKind.dataset →
       ((addOne api self item).2.2).parent = none ∧
       ((addOne api self item).2.2).dataset = some rid) ∧
    (self.kind = CKind.collection →
       ((addOne api self item).2.2).parent = some rid ∧
       ((addOne api self item).2.2).dataset = self.dataset) := by
  cases hk : self.kind
  · refine ⟨fun _ => ⟨?_, ?_⟩, fun hc => absurd hc (by decide)⟩
    · simp only [addOne, hk, core_create_parent]
    · simp only [addOne, hk, core_create_dataset]
      exact hid
  · refine ⟨fun hc => absurd hc (by decide), fun _ => ⟨?_, ?_⟩⟩
    · simp only [addOne, hk, core_create_parent]
      exact hid
    · simp only [addOne, hk, core_create_dataset]

theorem addLoop_prop (items : List Item) : ∀ (api : Api) (self : Coll) (rid : String),
    self.id = some rid →
    ∀ it ∈ (addLoop api self items).2.2,
      (self.kind = CKind.dataset → it.parent = none ∧ it.dataset = some rid) ∧
      (self.kind = CKind.collection → it.parent = some rid ∧ it.dataset = self.dataset) := by
  induction items with
  | nil =>
    intro api self rid _ it hit
    simp [addLoop] at hit
  | cons a rest ih =>
    intro api self rid hid it hit
    simp only [addLoop] at hit
    rcases List.mem_cons.mp hit with h1 | h1
    · subst h1
      exact addOne_item_prop api self a rid hid
    · have hid1 : ((addOne api self a).2.1).id = some rid := by
        rw [addOne_id]; exact hid
      exact ih (addOne api self a).1 (addOne api self a).2.1 rid hid1 it h1

/-! ## Claim C1: add sets parent and dataset by receiver kind -/

/-- C1: for every item passed to `BaseCollection.add` on a receiver that
exists remotely, the mutated item ends with `parent = None` and
`dataset = receiver.id` when the receiver is a Dataset, and with
`parent = receiver.id` and `dataset = receiver.dataset` when the receiver
is a Collection. This covers every call of `add`, in particular the one
`BaseCollection.from_dict` makes for the children block of a wire
record. -/
theorem claim_C1 (api : Api) (self : Coll) (items : List Item) (rid : String)
    (res : Api × Coll × List Item)
    (hid : self.id = some rid)
    (hres : Coll.add api self items = .ok res) :
    ∀ it ∈ res.2.2,
      (self.kind = CKind.dataset → it.parent = none ∧ it.dataset = some rid) ∧
      (self.kind = CKind.collection → it.parent = some rid ∧ it.dataset = self.dataset) := by
  unfold Coll.add at hres
  rw [hid] at hres
  injection hres with h
  subst h
  exact addLoop_prop items api self rid hid

theorem claim_C1_witness :
    c1coll.id = some ("N:dataset:1") ∧
    Coll.add c1api c1coll [c1item] = .ok c1res ∧
    (∀ it ∈ c1res.2.2,
      (c1coll.kind = CKind.dataset →
         it.parent = none ∧ it.dataset = some ("N:dataset:1")) ∧
      (c1coll.kind = CKind.collection →
         it.parent = some ("N:dataset:1") ∧ it.dataset = c1coll.dataset)) :=
  ⟨rfl, rfl, claim_C1 c1api c1coll [c1item] ("N:dataset:1") c1res rfl rfl⟩

/-! ## Claim C6: create is issued only for id-less items -/

/-- C6: `BaseCollection.add` leads to a remote create only when the item
has no id yet; an item that already exists remotely is appended to
`_items` with its id unchanged and without a create round trip, while an
id-less item is created (one create round trip), receives the platform
identity, and the returned object is merged into the local item, which is
what gets appended. -/
theorem claim_C6 (api : Api) (self : Coll) (item : Item) (rid : String)
    (res : Api × Coll × List Item)
    (hid : self.id = some rid)
    (hres : Coll.add api self [item] = .ok res) :
    (∀ i0, item.id = some i0 →
       res.1.createCount = api.createCount ∧
       ∃ it1, res.2.2 = [it1] ∧ it1.id = some i0 ∧
         res.2.1._items = some (self._items.getD [] ++ [it1])) ∧
    (item.id = none →
       res.1.createCount = api.createCount + 1 ∧
       ∃ it1, res.2.2 = [it1] ∧ it1.id = some (freshName api.nextId) ∧
         res.2.1._items = some (self._items.getD [] ++ [it1])) := by
  unfold Coll.add at hres
  rw [hid] at hres
  injection hres with h
  subst h
  constructor
  · intro i0 hi
    cases hk : self.kind
    · refine ⟨?_, ⟨{ item with
          parent := none, dataset := self.id }, ?_, ?_, ?_⟩⟩ <;>
        simp [addLoop, addOne, core_create, hk, hi]
    · refine ⟨?_, ⟨{ item with
          parent := self.id, dataset := self.dataset }, ?_, ?_, ?_⟩⟩ <;>
        simp [addLoop, addOne, core_create, hk, hi]
  · intro hi
    cases hk : self.kind
    · refine ⟨?_, ⟨{ item with
          parent := none, dataset := self.id,
          id := some (freshName api.nextId) }, ?_, ?_, ?_⟩⟩ <;>
        simp [addLoop, addOne, core_create, hk, hi]
    · refine ⟨?_, ⟨{ item with
          parent := self.id, dataset := self.dataset,
          id := some (freshName api.nextId) }, ?_, ?_, ?_⟩⟩ <;>
        simp [addLoop, addOne, core_create, hk, hi]

theorem claim_C6_witness :
    c6coll.id = some ("N:collection:1") ∧
    Coll.add c6api c6coll [c6item] = .ok c6res ∧
    ((∀ i0, c6item.id = some i0 →
        c6res.1.createCount = c6api.createCount ∧
        ∃ it1, c6res.2.2 = [it1] ∧ it1.id = some i0 ∧
          c6res.2.1._items = some (c6coll._items.getD [] ++ [it1])) ∧
     (c6item.id = none →
        c6res.1.createCount = c6api.createCount + 1 ∧
        ∃ it1, c6res.2.2 = [it1] ∧ it1.id = some (freshName c6api.nextId) ∧
          c6res.2.1._items = some (c6coll._items.getD [] ++ [it1]))) :=
  ⟨rfl, rfl, claim_C6 c6api c6coll c6item ("N:collection:1") c6res rfl rfl⟩
/-! ## Claim C2: lazy loading of the items cache -/

/-- C2: on a remotely existing Collection whose cache is unloaded, the
first `items` read performs exactly one remote fetch, stores the fetched
children in `_items` (the empty list when the store reports none), and a
second read with no intervening mutation returns the cached list with no
further remote call (the whole state is unchanged, so this extends to
every later read); a successful `remove` resets `_items` to the unloaded
sentinel, after which the next read performs exactly one new fetch. -/
theorem claim_C2 (api : Api) (self : Coll) (cid : String)
    (hid : self.id = some cid) (hun : self._items = none) :
    ∃ api1 self1 l1,
      Coll.itemsRead api self = .ok (api1, self1, l1) ∧
      api1.fetchCount = api.fetchCount + 1 ∧
      self1._items = some l1 ∧
      l1 = (api.childrenOf cid).getD [] ∧
      Coll.itemsRead api1 self1 = .ok (api1, self1, l1) ∧
      (∀ items api2 self2, Coll.remove api1 self1 items = ((api2, self2), none) →
         self2._items = none ∧
         ∃ api3 self3 l3, Coll.itemsRead api2 self2 = .ok (api3, self3, l3) ∧
           api3.fetchCount = api2.fetchCount + 1) := by
  refine ⟨{ api with
            fetchCount := api.fetchCount + 1 },
          { self with
            _items := some ((api.childrenOf cid).getD []) },
          (api.childrenOf cid).getD [], ?_, rfl, rfl, rfl, ?_, ?_⟩
  · simp only [Coll.itemsRead, hid, hun, coll_get]
  · simp only [Coll.itemsRead, hid]
  · intro items api2 self2 hrem
    simp only [Coll.remove, hid] at hrem
    rcases hck : checkAll (some ((api.childrenOf cid).getD [])) items with _ | e
    · rw [hck] at hrem
      injection hrem with hA hB
      injection hA with h1 h2
      subst h1
      subst h2
      refine ⟨rfl, ?_⟩
      refine ⟨{ (data_delete { api with
                  fetchCount := api.fetchCount + 1 } items) with
                fetchCount := api.fetchCount + 2 },
              { self with
                _items := some (((data_delete { api with
                  fetchCount := api.fetchCount + 1 } items).childrenOf cid).getD []) },
              ((data_delete { api with
                  fetchCount := api.fetchCount + 1 } items).childrenOf cid).getD [], ?_, rfl⟩
      simp only [Coll.itemsRead, hid, coll_get, data_delete]
    · rw [hck] at hrem
      injection hrem with hA hB
      cases hB

theorem claim_C2_witness :
    c2coll.id = some ("N:collection:2") ∧
    c2coll._items = none ∧
    (∃ api1 self1 l1,
      Coll.itemsRead c2api c2coll = .ok (api1, self1, l1) ∧
      api1.fetchCount = c2api.fetchCount + 1 ∧
      self1._items = some l1 ∧
      l1 = (c2api.childrenOf ("N:collection:2")).getD [] ∧
      Coll.itemsRead api1 self1 = .ok (api1, self1, l1) ∧
      (∀ items api2 self2, Coll.remove api1 self1 items = ((api2, self2), none) →
         self2._items = none ∧
         ∃ api3 self3 l3, Coll.itemsRead api2 self2 = .ok (api3, self3, l3) ∧
           api3.fetchCount = api2.fetchCount + 1)) :=
  ⟨rfl, rfl, claim_C2 c2api c2coll ("N:collection:2") rfl rfl⟩

/-! ## Helper lemmas: the remove membership check -/

theorem checkAll_complete (l : List Item) : ∀ items : List Item,
    (∀ x ∈ items, memberOf l x = true) → checkAll (some l) items = none := by
  intro items
  induction items with
  | nil => intro _; rfl
  | cons a rest ih =>
    intro h
    have ha : memberOf l a = true := h a (List.mem_cons_self a rest)
    simp only [checkAll, ha, if_true]
    exact ih (fun x hx => h x (List.mem_cons_of_mem a hx))

theorem checkAll_stale (l : List Item) : ∀ items : List Item,
    (¬ ∀ x ∈ items, memberOf l x = true) →
    ∃ y, y ∈ items ∧ memberOf l y = false ∧
      checkAll (some l) items = some (.staleItem y) := by
  intro items
  induction items with
  | nil => intro h; exact absurd (fun x hx => absurd hx (List.not_mem_nil x)) h
  | cons a rest ih =>
    intro h
    by_cases ha : memberOf l a = true
    · have h2 : ¬ ∀ x ∈ rest, memberOf l x = true := by
        intro hall
        exact h (fun x hx => by
          rcases List.mem_cons.mp hx with h3 | h3
          · subst h3; exact ha
          · exact hall x h3)
      obtain ⟨y, hy1, hy2, hy3⟩ := ih h2
      exact ⟨y, List.mem_cons_of_mem a hy1, hy2, by
        simp only [checkAll, ha, if_true]; exact hy3⟩
    · have ha2 : memberOf l a = false := by
        cases hb : memberOf l a
        · rfl
        · exact absurd hb ha
      exact ⟨a, List.mem_cons_self a rest, ha2, by
        simp only [checkAll, ha2]; rfl⟩

/-! ## Claim C9: remove is guarded and atomic -/

/-- C9: on a loaded Collection, `remove` fails with the stale-reference
error whenever some named item is missing from the loaded `_items` list,
and in that case nothing happens: no delete verb is issued and the state
(api and collection, hence the `_items` cache) is returned untouched.
When every named item is present, one delete verb call naming all the
items is issued and `_items` is reset to the unloaded sentinel. -/
theorem claim_C9 (api : Api) (self : Coll) (items l : List Item) (rid : String)
    (hid : self.id = some rid) (hl : self._items = some l) :
    ((¬ ∀ x ∈ items, memberOf l x = true) →
       ∃ x, x ∈ items ∧ memberOf l x = false ∧
         Coll.remove api self items = ((api, self), some (.staleItem x))) ∧
    ((∀ x ∈ items, memberOf l x = true) →
       Coll.remove api self items =
         ((data_delete api items, { self with _items := none }), none)) := by
  constructor
  · intro h
    obtain ⟨y, hy1, hy2, hy3⟩ := checkAll_stale l items h
    exact ⟨y, hy1, hy2, by simp only [Coll.remove, hid, hl, hy3]⟩
  · intro h
    have h2 : checkAll (some l) items = none := checkAll_complete l items h
    simp only [Coll.remove, hid, hl, h2]

theorem claim_C9_witness :
    c9coll.id = some ("N:collection:3") ∧
    c9coll._items = some [c9item] ∧
    (((¬ ∀ x ∈ [c9item], memberOf [c9item] x = true) →
       ∃ x, x ∈ [c9item] ∧ memberOf [c9item] x = false ∧
         Coll.remove c9api c9coll [c9item] = ((c9api, c9coll), some (.staleItem x))) ∧
     ((∀ x ∈ [c9item], memberOf [c9item] x = true) →
       Coll.remove c9api c9coll [c9item] =
         ((data_delete c9api [c9item], { c9coll with _items := none }), none))) :=
  ⟨rfl, rfl, claim_C9 c9api c9coll [c9item] [c9item] ("N:collection:3") rfl rfl⟩

/-! ## Claim C10: remove on a never-loaded collection -/

/-- C10: on a remotely existing Collection whose children were never
loaded (the `_items` sentinel is still `None`), `remove(item)` fails
before any remote call, because the membership test iterates the sentinel
and raises a TypeError; the api state and the collection are untouched,
and the raised error is not the documented stale-reference failure. -/
theorem claim_C10 (api : Api) (self : Coll) (item : Item) (rid : String)
    (hid : self.id = some rid) (hun : self._items = none) :
    Coll.remove api self [item] = ((api, self), some .noneNotIterable) ∧
    (∀ x, PyErr.noneNotIterable ≠ PyErr.staleItem x) := by
  constructor
  · simp only [Coll.remove, hid, hun, checkAll]
  · intro x h
    cases h

theorem claim_C10_witness :
    c10coll.id = some ("N:collection:4") ∧
    c10coll._items = none ∧
    (Coll.remove c10api c10coll [c10item] = ((c10api, c10coll), some .noneNotIterable) ∧
     (∀ x, PyErr.noneNotIterable ≠ PyErr.staleItem x)) :=
  ⟨rfl, rfl, claim_C10 c10api c10coll c10item ("N:collection:4") rfl rfl⟩

/-! ## Claim C5: path-tree merge -/

/-- C5: merging the per-path trees built from the id paths [A,B,C] and
[A,B,D] (C and D distinct) produces the single tree in which the subtree
of A contains B, whose subtree contains both C and D as terminal leaves;
and merging two trees in which the same key maps to differing non-mapping
values (two distinct entity leaves) raises the merge-conflict error
naming the offending dotted key path. -/
theorem claim_C5 (A B C D k u v : String) (hCD : C ≠ D) (huv : u ≠ v) :
    (∀ a b, make_tree [A, B, C] = some a → make_tree [A, B, D] = some b →
       merge a b [] = .ok (.dcons A (.dcons B (.dcons C (.obj C)
         (.dcons D (.obj D) .dnil)) .dnil) .dnil)) ∧
    merge (.dcons k (.obj u) .dnil) (.dcons k (.obj v) .dnil) [] =
      .error (("Conflict at ") ++ k) := by
  have hCD2 : (C == D) = false := beq_eq_false_iff_ne.mpr hCD
  have huv2 : (u == v) = false := beq_eq_false_iff_ne.mpr huv
  constructor
  · intro a b ha hb
    have ha2 : a = .dcons A (.dcons B (.dcons C (.obj C) .dnil) .dnil) .dnil := by
      rw [show make_tree [A, B, C] =
        some (.dcons A (.dcons B (.dcons C (.obj C) .dnil) .dnil) .dnil) from rfl] at ha
      injection ha with h
      exact h.symm
    have hb2 : b = .dcons A (.dcons B (.dcons D (.obj D) .dnil) .dnil) .dnil := by
      rw [show make_tree [A, B, D] =
        some (.dcons A (.dcons B (.dcons D (.obj D) .dnil) .dnil) .dnil) from rfl] at hb
      injection hb with h
      exact h.symm
    subst ha2
    subst hb2
    simp [merge, dlookup, dset, PyVal.isDict, pyEqNonDict, hCD2]
  · simp [merge, dlookup, dset, PyVal.isDict, pyEqNonDict, huv2, joinDot]

theorem claim_C5_witness :
    (("C") : String) ≠ ("D") ∧ (("u") : String) ≠ ("v") ∧
    ((∀ a b, make_tree [("A"), ("B"), ("C")] = some a →
        make_tree [("A"), ("B"), ("D")] = some b →
        merge a b [] = .ok (.dcons ("A") (.dcons ("B") (.dcons ("C") (.obj ("C"))
          (.dcons ("D") (.obj ("D")) .dnil)) .dnil) .dnil)) ∧
     merge (.dcons ("Z") (.obj ("u")) .dnil) (.dcons ("Z") (.obj ("v")) .dnil) [] =
       .error (("Conflict at ") ++ ("Z"))) :=
  ⟨by decide, by decide,
   claim_C5 ("A") ("B") ("C") ("D") ("Z") ("u") ("v") (by decide) (by decide)⟩

/-! ## Helper definitions and lemmas: from_dict sensitivity analysis -/

theorem popId_append (content : List (String × WVal)) (w : String) (v : WVal)
    (hw : (w == ("id")) = false) :
    popId (content ++ [(w, v)]) = ((popId content).1, (popId content).2 ++ [(w, v)]) := by
  induction content with
  | nil => simp [popId, hw]
  | cons p rest ih =>
    obtain ⟨k1, x⟩ := p
    by_cases hk1 : (k1 == ("id")) = true
    · simp [popId, hk1]
    · have hk1f : (k1 == ("id")) = false := by
        cases h2 : k1 == ("id")
        · rfl
        · exact absurd h2 hk1
      simp [popId, hk1f, ih]

theorem buildKwargs_append (args : List String) (entries : List (String × WVal))
    (w : String) (v : WVal) :
    buildKwargs args (entries ++ [(w, v)]) =
      upsert (buildKwargs args entries) (reconcile_key args w) v := by
  unfold buildKwargs
  rw [List.foldl_append]
  rfl

theorem reconcile_fallsThrough (args : List String) (w : String)
    (h : fallsThrough args w) : reconcile_key args w = w := by
  obtain ⟨h1, h2, h3⟩ := h
  simp only [reconcile_key, h1, h2, h3, Bool.false_eq_true, if_false]

theorem kwget_upsert_ne (w : String) (v : WVal) (k : String)
    (hne : ¬ (k = w)) : ∀ kw : List (String × WVal),
    kwget (upsert kw w v) k = kwget kw k := by
  have hwk : (w == k) = false := by
    cases h : w == k
    · rfl
    · exact absurd (eq_of_beq h).symm hne
  intro kw
  induction kw with
  | nil => simp [upsert, kwget, wlookup, hwk]
  | cons p rest ih =>
    obtain ⟨k1, x⟩ := p
    simp only [upsert]
    by_cases hk1 : (k1 == w) = true
    · rw [if_pos hk1]
      have hk1k : (k1 == k) = false := by
        cases h2 : k1 == k
        · rfl
        · exact absurd ((eq_of_beq h2).symm.trans (eq_of_beq hk1)) hne
      simp [kwget, wlookup, hwk, hk1k]
    · rw [if_neg hk1]
      by_cases hk1k : (k1 == k) = true
      · simp [kwget, wlookup, hk1k]
      · have hk1kf : (k1 == k) = false := by
          cases h2 : k1 == k
          · rfl
          · exact absurd h2 hk1k
        simp only [kwget, wlookup, hk1kf, Bool.false_eq_true, if_false]
        exact ih

theorem fallsThrough_not_read (w : String)
    (hfall : fallsThrough file_class_args w)
    (hst : ¬ (w = ("state"))) (hca : ¬ (w = ("createdAt")))
    (hua : ¬ (w = ("updatedAt"))) :
    ∀ k ∈ fileReadKeys, ¬ (k = w) := by
  intro k hk he
  subst he
  fin_cases hk <;>
    first
      | exact absurd hfall.1 (by decide)
      | exact hst rfl
      | exact hca rfl
      | exact hua rfl

theorem File_init_congr (kw1 kw2 : List (String × WVal))
    (h : ∀ k ∈ fileReadKeys, kwget kw1 k = kwget kw2 k) :
    File_init kw1 = File_init kw2 := by
  unfold File_init
  rw [h ("self") (by decide), h ("type") (by decide), h ("name") (by decide),
      h ("s3_key") (by decide), h ("s3_bucket") (by decide),
      h ("file_type") (by decide), h ("size") (by decide),
      h ("parent") (by decide), h ("id") (by decide),
      h ("dataset_id") (by decide), h ("owner_id") (by decide),
      h ("provenance_id") (by decide), h ("state") (by decide),
      h ("createdAt") (by decide), h ("updatedAt") (by decide),
      h ("pkg_id") (by decide)]

theorem File_init_upsert (kw : List (String × WVal)) (w : String) (v : WVal)
    (hfall : fallsThrough file_class_args w)
    (hst : ¬ (w = ("state"))) (hca : ¬ (w = ("createdAt")))
    (hua : ¬ (w = ("updatedAt"))) :
    File_init (upsert kw w v) = File_init kw :=
  File_init_congr _ _ (fun k hk =>
    kwget_upsert_ne w v k (fallsThrough_not_read w hfall hst hca hua k hk) kw)

theorem File_from_dict_content (content : List (String × WVal)) :
    File_from_dict [(("content"), .wdict content)] =
      (match File_init (buildKwargs file_class_args (popId content).2) with
       | .error e => .error e
       | .ok f =>
         match (popId content).1 with
         | some .wnull => .ok f
         | some v2 => .ok { f with id := v2 }
         | none => .ok f) := rfl

theorem structurallyValidFile_init (content : List (String × WVal))
    (hval : structurallyValidFile content = true) :
    ∃ f0, File_init (buildKwargs file_class_args (popId content).2) = .ok f0 := by
  unfold structurallyValidFile at hval
  simp only [Bool.and_eq_true] at hval
  obtain ⟨⟨⟨⟨⟨⟨⟨hself, htype⟩, hname⟩, hs3k⟩, hs3b⟩, hft⟩, hsz⟩, hparent⟩ := hval
  rw [Option.isNone_iff_eq_none] at hself htype
  rw [Option.isSome_iff_exists] at hname hs3k hs3b hft hsz
  obtain ⟨nv, hnv⟩ := hname
  obtain ⟨kv, hkv⟩ := hs3k
  obtain ⟨bv, hbv⟩ := hs3b
  obtain ⟨fv, hfv⟩ := hft
  obtain ⟨zv, hzv⟩ := hsz
  unfold File_init
  simp only [hself, htype, hnv, hkv, hbv, hfv, hzv, Option.isSome_none,
    Bool.false_eq_true, if_false]
  rcases hp : (kwget (buildKwargs file_class_args (popId content).2) ("parent")).getD .wnull
    with _ | s | n | b | es
  · exact ⟨_, rfl⟩
  · exact ⟨_, rfl⟩
  · rw [hp] at hparent
    simp at hparent
  · rw [hp] at hparent
    simp at hparent
  · rw [hp] at hparent
    simp at hparent

/-! ## Claim C8: no raise for valid records; unknown keys are discarded -/

/-- C8 counterexample: the claim says an unrecognized wire key such as
weirdField is preserved as an extra attribute on the constructed entity;
in fact the constructor discards it (it lands in the unused catch-all
kwargs), so constructing with and without the extra key yields the very
same entity, and the constructed File carries no trace of the key. -/
theorem claim_C8_counterexample :
    File_from_dict [(("content"), .wdict (c8content ++ [(("weirdField"), .wstr ("x"))]))] =
      File_from_dict [(("content"), .wdict c8content)] ∧
    File_from_dict [(("content"), .wdict c8content)] =
      .ok { id := .wstr ("N:file:1"), name := .wstr ("f"), type := .wstr ("PDF"),
            parent := .wnull, dataset := .wnull, owner_id := .wnull,
            provenance_id := .wnull, state := .wnull, created_at := .wnull,
            updated_at := .wnull, s3_key := .wstr ("k"), s3_bucket := .wstr ("b"),
            size := .wint 10, pkg_id := .wnull, local_path := .wnull } :=
  ⟨rfl, rfl⟩

/-- C8 (amended): for every structurally valid File wire record, entity
construction `from_dict` does not raise; and a wire key that matches no
accepted local identifier under the three reconciliation rules is bound
verbatim into the constructor keyword set but then discarded by the
catch-all parameter (rather than raising or being preserved as an
attribute): the constructed entity is identical with or without the
unknown key. The keys state, createdAt and updatedAt are excluded because
the constructor body pops exactly those from the catch-all. -/
theorem claim_C8 (content : List (String × WVal)) (w : String) (v : WVal)
    (hval : structurallyValidFile content = true)
    (hfall : fallsThrough file_class_args w)
    (hst : ¬ (w = ("state"))) (hca : ¬ (w = ("createdAt")))
    (hua : ¬ (w = ("updatedAt"))) :
    (∃ f, File_from_dict [(("content"), .wdict content)] = .ok f) ∧
    reconcile_key file_class_args w = w ∧
    File_from_dict [(("content"), .wdict (content ++ [(w, v)]))] =
      File_from_dict [(("content"), .wdict content)] := by
  obtain ⟨f0, hf0⟩ := structurallyValidFile_init content hval
  have hwid : (w == ("id")) = false := by
    cases h : w == ("id")
    · rfl
    · exact absurd (eq_of_beq h)
        (fun he => fallsThrough_not_read w hfall hst hca hua ("id") (by decide) he.symm)
  have hpopapp := popId_append content w v hwid
  refine ⟨?_, reconcile_fallsThrough _ _ hfall, ?_⟩
  · rw [File_from_dict_content, hf0]
    rcases hpop : (popId content).1 with _ | v2
    · exact ⟨f0, rfl⟩
    · cases v2 with
      | wnull => exact ⟨f0, rfl⟩
      | wstr s => exact ⟨_, rfl⟩
      | wint n => exact ⟨_, rfl⟩
      | wbool b => exact ⟨_, rfl⟩
      | wdict es => exact ⟨_, rfl⟩
  · rw [File_from_dict_content, File_from_dict_content]
    have hkw : buildKwargs file_class_args (popId (content ++ [(w, v)])).2 =
        upsert (buildKwargs file_class_args (popId content).2) w v := by
      rw [hpopapp]
      rw [buildKwargs_append, reconcile_fallsThrough _ _ hfall]
    have hpop1 : (popId (content ++ [(w, v)])).1 = (popId content).1 := by
      rw [hpopapp]
    rw [hkw, File_init_upsert _ w v hfall hst hca hua, hpop1]

theorem claim_C8_witness :
    structurallyValidFile c8content = true ∧
    fallsThrough file_class_args ("weirdField") ∧
    (¬ ((("weirdField") : String) = ("state"))) ∧
    (¬ ((("weirdField") : String) = ("createdAt"))) ∧
    (¬ ((("weirdField") : String) = ("updatedAt"))) ∧
    ((∃ f, File_from_dict [(("content"), .wdict c8content)] = .ok f) ∧
     reconcile_key file_class_args ("weirdField") = ("weirdField") ∧
     File_from_dict [(("content"), .wdict (c8content ++ [(("weirdField"), c8wval)]))] =
       File_from_dict [(("content"), .wdict c8content)]) :=
  ⟨by decide, by decide, by decide, by decide, by decide,
   claim_C8 c8content ("weirdField") c8wval (by decide) (by decide)
     (by decide) (by decide) (by decide)⟩

end Blackfynn
